import Mathlib

/-!
Shallow embedding of `src/notebook/model_factory_sample.py`.

Conventions of the embedding:
* Python dictionaries and YAML documents are modelled as `YamlValue`
  (association lists of string keys); scalar floats (model scores and
  accuracies) are modelled as `ℚ`.
* A Python function that can raise is modelled with `Except String`;
  the string is the message of the exception that the source raises
  (every raise in the source is wrapped into HousingException, which
  preserves the originating message).
* Dynamically imported classes (`importlib` in `class_for_name`) are
  modelled by tagging the constructed object with its module and class
  names; the fitting of a grid search (external library call) is an
  oracle parameter.
* A `for` loop is translated to structural recursion on the iterated
  list, with the loop-carried mutable locals as accumulator arguments;
  a `return` inside the loop body stops the recursion.
-/

/-- Values of a parsed YAML document (source lines 45-69 use strings,
integers, lists and nested mappings only). -/
inductive YamlValue where
  | str (s : String)
  | int (n : Int)
  | seq (items : List YamlValue)
  | dict (entries : List (String × YamlValue))

/-- Source line 13. -/
def MODEL_SELECTION_KEY : String := "model_selection"

/-- Source line 14. -/
def MODULE_KEY : String := "module"

/-- Source line 15. -/
def CLASS_KEY : String := "class"

/-- Source line 16. -/
def PARAM_KEY : String := "params"

/-- Source line 17. -/
def SEARCH_PARAM_GRID_KEY : String := "search_param_grid"

/-- Source line 18. -/
def GRID_SEARCH_KEY : String := "grid_search"

/-- Python object constructed from a dynamically resolved class
(`model_obj_ref()` at source line 211): the module and class tags record
which class was resolved, `attrs` records the attributes assigned by
`setattr`. -/
structure PyObject where
  module_name : String
  class_name : String
  attrs : List (String × YamlValue)

/-- Source lines 21-22: namedtuple InitialisedModelDetail. -/
structure InitialisedModelDetail where
  model_serial_number : String
  model : PyObject
  param_grid_search : List (String × YamlValue)
  model_name : String

/-- Source lines 24-28: namedtuple GridSearchedBestModel. -/
structure GridSearchedBestModel where
  model_serial_number : String
  model : PyObject
  best_model : PyObject
  best_parameters : List (String × YamlValue)
  best_score : ℚ

/-- Source lines 30-34: namedtuple BestModel, with exactly the fields of
GridSearchedBestModel. -/
abbrev BestModel := GridSearchedBestModel

/-- One candidate model of the evaluation loop of
`evaluate_regression_model` (source lines 101-120), together with the
metrics that the external library computes for it: `str(model)` (line
103), the two r2 scores (lines 111-112) and the two root mean squared
errors (lines 115-116).  `predict`, `r2_score` and `mean_squared_error`
are opaque external capabilities, so the embedding takes their outputs
as given per candidate. -/
structure CandidateMetrics where
  model_name : String
  train_acc : ℚ
  test_acc : ℚ
  train_rmse : ℚ
  test_rmse : ℚ
deriving DecidableEq

/-- Source lines 36-39: namedtuple MetricInfoArtifact.  The source
constructor call (lines 138-145) writes the keyword `model_accuracy`
twice, once with the model and once with the harmonic accuracy; the
evident intent (and the field list of line 36-39) is `model_object` for
the model, which is how the field is modelled here. -/
structure MetricInfoArtifact where
  model_name : String
  model_object : CandidateMetrics
  train_rmse : ℚ
  test_rmse : ℚ
  train_accuracy : ℚ
  test_accuracy : ℚ
  model_accuracy : ℚ
  index_number : ℕ
deriving DecidableEq

/-- Source line 119: harmonic mean of the train and test accuracy. -/
def model_accuracy_of (train_acc test_acc : ℚ) : ℚ :=
  2 * (train_acc * test_acc) / (train_acc + test_acc)

/-- Source lines 138-145: the MetricInfoArtifact built for an accepted
candidate.  `index_number` is the local of line 99, still 0 here because
the increment of line 148 is outside the loop body. -/
def mkMetricInfoArtifact (m : CandidateMetrics) (acc : ℚ) : MetricInfoArtifact :=
  ⟨m.model_name, m, m.train_rmse, m.test_rmse, m.train_acc, m.test_acc, acc, 0⟩

/-- Message of the ZeroDivisionError (an ArithmeticError) that Python
raises at source line 119 when `train_acc + test_acc == 0`. -/
def zeroDivisionMsg : String := "float division by zero"

/-- Source lines 101-148, the body of `evaluate_regression_model` as
structural recursion: `base_accuracy` and `metric_info_artifact` are the
loop-carried mutable locals.  Reaching the end of the list models
falling out of the loop and returning `metric_info_artifact`
(lines 149-151). -/
def evaluateLoop (base_accuracy : ℚ) (metric_info_artifact : Option MetricInfoArtifact) :
    List CandidateMetrics → Except String (Option MetricInfoArtifact)
  | [] => .ok metric_info_artifact
  | model :: rest =>
    if model.train_acc + model.test_acc = 0 then
      .error zeroDivisionMsg
    else
      let model_accuracy := model_accuracy_of model.train_acc model.test_acc
      let diff_test_train_acc := |model.test_acc - model.train_acc|
      if model_accuracy ≥ base_accuracy ∧ diff_test_train_acc < 0.05 then
        evaluateLoop model_accuracy (some (mkMetricInfoArtifact model model_accuracy)) rest
      else
        evaluateLoop base_accuracy metric_info_artifact rest

/-- Source lines 81-154: `evaluate_regression_model`.  A raised
ZeroDivisionError is wrapped by lines 153-154 and surfaces as the error
case. -/
def evaluate_regression_model (model_list : List CandidateMetrics)
    (base_accuracy : ℚ) : Except String (Option MetricInfoArtifact) :=
  evaluateLoop base_accuracy none model_list

/-- Message of the exception raised at source line 332. -/
def noAcceptableModelMsg : String := "None of the model has base accuracy"

/-- Source lines 318-338: `get_best_model_from_grid_searched_best_model_list`.
Every path through the loop body exits the function (the raise of lines
331-332 and the return of line 334 are both inside the loop body), so
only the first element of the list is ever examined; an empty list falls
out of the loop and out of the try block, returning None. -/
def get_best_model_from_grid_searched_best_model_list
    (grid_searched_best_model_list : List GridSearchedBestModel)
    (base_accuracy : ℚ) : Except String (Option BestModel) :=
  match grid_searched_best_model_list with
  | [] => .ok none
  | grid_searched_best_model :: _ =>
    let best_model : Option GridSearchedBestModel :=
      if base_accuracy < grid_searched_best_model.best_score then
        some grid_searched_best_model
      else
        none
    match best_model with
    | none => .error noAcceptableModelMsg
    | some b => .ok (some b)

/-- Update one key of an association list, as Python `setattr` updates
one attribute of an object (source line 197): overwrite the existing
binding or append a new one. -/
def setAssoc : List (String × YamlValue) → String → YamlValue → List (String × YamlValue)
  | [], key, value => [(key, value)]
  | (k, v) :: rest, key, value =>
    if k = key then (key, value) :: rest else (k, v) :: setAssoc rest key value

/-- Source lines 195-197: the attribute assignments performed by
`update_property_of_class`, one `setattr` per entry of `property_data`.
The isinstance guard of lines 192-193 always passes in the embedding
because `property_data` is a mapping by type. -/
def applyProperties (attrs property_data : List (String × YamlValue)) :
    List (String × YamlValue) :=
  property_data.foldl (fun acc kv => setAssoc acc kv.1 kv.2) attrs

/-- Source lines 189-200: `update_property_of_class` on a model object. -/
def update_property_of_class (instance_ref : PyObject)
    (property_data : List (String × YamlValue)) : PyObject :=
  { instance_ref with attrs := applyProperties instance_ref.attrs property_data }

/-- Source lines 177-187: `class_for_name` resolves a class from its
module and class names; the embedding models the resolved class
reference by the pair of names (import and getattr failures are outside
the embedding: the claims quantify over valid configurations, for which
resolution succeeds). -/
def class_for_name (module_name class_name : String) : String × String :=
  (module_name, class_name)

/-- Calling a resolved class reference with no arguments
(`model_obj_ref()` at source line 211) yields a fresh object with no
assigned attributes. -/
def callClass (class_ref : String × String) : PyObject :=
  ⟨class_ref.1, class_ref.2, []⟩

/-- One value of the `model_selection` mapping (source lines 56-67 give
its shape; lines 208-218 read its keys): module, class, optional
constructor params and the hyperparameter search grid. -/
structure ModelInitConfig where
  module : String
  cls : String
  params : Option (List (String × YamlValue))
  search_param_grid : List (String × YamlValue)

/-- The parsed configuration document as consumed by
`ModelFactory.__init__` (source lines 158-166): the `grid_search`
entries and the `model_selection` mapping, in document order. -/
structure ModelConfig where
  grid_search_module : String
  grid_search_class : String
  grid_search_params : List (String × YamlValue)
  model_selection : List (String × ModelInitConfig)

/-- Source lines 156-166: the ModelFactory object and the fields set by
`__init__`. -/
structure ModelFactory where
  config : ModelConfig
  models_initialisation_config : List (String × ModelInitConfig)
  initialised_model_list : Option (List InitialisedModelDetail)
  grid_search_cv_module : String
  grid_search_class_name : String
  grid_search_property_data : List (String × YamlValue)
  grid_searched_best_model_list : Option (List (Option GridSearchedBestModel))

/-- Source lines 158-166: `ModelFactory.__init__` on an already parsed
configuration.  Both cached lists start as None. -/
def ModelFactory.init (config : ModelConfig) : ModelFactory :=
  ⟨config, config.model_selection, none,
    config.grid_search_module, config.grid_search_class,
    config.grid_search_params, none⟩

/-- Source lines 208-223: processing of one descriptor inside the loop
of `get_initialised_model_list`: resolve the class, construct the model,
apply the optional params, attach the grid and the display name. -/
def initialiseModel (model_serial_number : String)
    (model_initialisation_config : ModelInitConfig) : InitialisedModelDetail :=
  let model_obj_ref := class_for_name model_initialisation_config.module
    model_initialisation_config.cls
  let model := callClass model_obj_ref
  let model := match model_initialisation_config.params with
    | some model_obj_property_data =>
        update_property_of_class model model_obj_property_data
    | none => model
  ⟨model_serial_number, model, model_initialisation_config.search_param_grid,
    model_initialisation_config.module ++ "." ++ model_initialisation_config.cls⟩

/-- Source lines 202-232: `get_initialised_model_list`.  The statements
of lines 225-228 (append, store into `self.initialised_model_list` and
**return**) are inside the loop body, so the first iteration already
returns: only the first descriptor of the mapping is processed.  With an
empty mapping the loop never runs and the function falls off the end of
the try block, returning None and leaving the stored field untouched.
The result pairs the returned value with the updated self. -/
def get_initialised_model_list (self : ModelFactory) :
    Option (List InitialisedModelDetail) × ModelFactory :=
  match self.models_initialisation_config with
  | [] => (none, self)
  | (model_serial_number, model_initialisation_config) :: _ =>
    let initialised_model_list :=
      [initialiseModel model_serial_number model_initialisation_config]
    (some initialised_model_list,
      { self with initialised_model_list := some initialised_model_list })

/-- The grid search object built at source lines 248-253: the resolved
search class tagged by module and class names, carrying the estimator,
the parameter grid and the properties applied from
`grid_search_property_data`. -/
structure GridSearchCV where
  module_name : String
  class_name : String
  estimator : PyObject
  param_grid : List (String × YamlValue)
  props : List (String × YamlValue)

/-- Outcome of fitting a grid search: the post-fit attributes
`best_estimator_`, `best_params_` and `best_score_` read at source
lines 265-267.  The fit itself is an external library capability, so
the embedding takes it as an oracle. -/
structure FitOutcome where
  best_estimator : PyObject
  best_params : List (String × YamlValue)
  best_score : ℚ

/-- Source lines 234-272: `execute_grid_search_operation`, parametrised
by the data type `α` of the feature arrays and by the fit oracle. -/
def execute_grid_search_operation {α : Type}
    (self : ModelFactory) (fitOracle : GridSearchCV → α → α → FitOutcome)
    (initialized_model : InitialisedModelDetail)
    (input_feature output_feature : α) : GridSearchedBestModel :=
  let grid_search_cv_ref := class_for_name self.grid_search_cv_module
    self.grid_search_class_name
  let grid_search_cv : GridSearchCV :=
    ⟨grid_search_cv_ref.1, grid_search_cv_ref.2,
      initialized_model.model, initialized_model.param_grid_search, []⟩
  let grid_search_cv :=
    { grid_search_cv with
        props := applyProperties grid_search_cv.props
          self.grid_search_property_data }
  let fitted := fitOracle grid_search_cv input_feature output_feature
  ⟨initialized_model.model_serial_number, initialized_model.model,
    fitted.best_estimator, fitted.best_params, fitted.best_score⟩

/-- Source lines 274-289:
`initiate_best_parameter_search_for_initialised_model`.  The body only
**calls** `execute_grid_search_operation` (line 285) and never returns
its result, so the Python function falls off the end and returns None;
the Option result records that. -/
def initiate_best_parameter_search_for_initialised_model {α : Type}
    (self : ModelFactory) (fitOracle : GridSearchCV → α → α → FitOutcome)
    (initialised_model : InitialisedModelDetail)
    (input_feature output_feature : α) : Option GridSearchedBestModel :=
  let _ := execute_grid_search_operation self fitOracle initialised_model
    input_feature output_feature
  none

/-- Source lines 294-302, the loop of
`initiate_best_parameter_search_for_initialised_models`: one search per
initialised model, each result appended to the accumulated list. -/
def searchLoop {α : Type} (self : ModelFactory)
    (fitOracle : GridSearchCV → α → α → FitOutcome)
    (input_feature output_feature : α)
    (acc : List (Option GridSearchedBestModel)) :
    List InitialisedModelDetail → List (Option GridSearchedBestModel)
  | [] => acc
  | m :: rest =>
    searchLoop self fitOracle input_feature output_feature
      (acc ++ [initiate_best_parameter_search_for_initialised_model self
        fitOracle m input_feature output_feature]) rest

/-- Source lines 291-305:
`initiate_best_parameter_search_for_initialised_models`; returns the
accumulated list and the self updated with it stored in
`grid_searched_best_model_list`. -/
def initiate_best_parameter_search_for_initialised_models {α : Type}
    (self : ModelFactory) (fitOracle : GridSearchCV → α → α → FitOutcome)
    (initialised_model_list : List InitialisedModelDetail)
    (input_feature output_feature : α) :
    List (Option GridSearchedBestModel) × ModelFactory :=
  let results := searchLoop self fitOracle input_feature output_feature []
    initialised_model_list
  (results, { self with grid_searched_best_model_list := some results })

/-- Source lines 45-69: the `model_config` mapping that
`get_sample_model_config_yaml_file` serialises. -/
def model_config : YamlValue :=
  .dict [
    (GRID_SEARCH_KEY, .dict [
      (MODULE_KEY, .str "sklearn.model_selection"),
      (CLASS_KEY, .str "GridSearchCV"),
      (PARAM_KEY, .dict [
        ("cv", .int 3),
        ("verbose", .int 1)])]),
    (MODEL_SELECTION_KEY, .dict [
      ("module_0", .dict [
        (MODULE_KEY, .str "module_of_model"),
        (CLASS_KEY, .str "ModelClassName"),
        (PARAM_KEY, .dict [
          ("param_name1", .str "value1"),
          ("param_name2", .str "value2")]),
        (SEARCH_PARAM_GRID_KEY, .dict [
          ("param_name", .seq [.str "param_value_1", .str "param_value_2"])])])])]

/-- Source lines 43-76: `get_sample_model_config_yaml_file` serialises
`model_config` with `yaml.dump` and writes it to `<export_dir>/model.yaml`.
The YAML serialiser is an external library capability, so the embedding is
parametrised by the document type `Doc` and the `dump` function; the value
returned here is the document that ends up in the written file (the
directory and path plumbing is filesystem I/O outside the embedding). -/
def get_sample_model_config_yaml_file {Doc : Type}
    (dump : YamlValue → Doc) : Doc :=
  dump model_config

/-- Source lines 168-175: `ModelFactory.read_params` reads the file at
the given path and parses it with `yaml.safe_load`.  The embedding takes
the document found in the file directly and is parametrised by the
external parser; a parse failure (None) corresponds to the
HousingException raised at line 175. -/
def ModelFactory.read_params {Doc : Type}
    (safe_load : Doc → Option YamlValue) (document : Doc) : Option YamlValue :=
  safe_load document

/-- Written from the words of the specification (section 4.4), for
comparison with `evaluate_regression_model`: one step of the documented
selection policy.  State is (current floor, retained report); a
candidate qualifies iff its combined harmonic accuracy is at least the
current floor and the train and test accuracies differ by less than
0.05; on qualification the floor becomes the combined accuracy and the
report is overwritten. -/
def specEvaluateStep (state : ℚ × Option MetricInfoArtifact)
    (m : CandidateMetrics) : ℚ × Option MetricInfoArtifact :=
  let combined := 2 * (m.train_acc * m.test_acc) / (m.train_acc + m.test_acc)
  if combined ≥ state.1 ∧ |m.test_acc - m.train_acc| < 0.05 then
    (combined, some (mkMetricInfoArtifact m combined))
  else
    state

/-- Written from the words of the specification (section 4.4): fold the
documented policy over all candidates starting from the base accuracy
floor and no report; the retained report of the final state is the
report of the last qualifying candidate, or absent when nothing
qualified. -/
def specEvaluate (model_list : List CandidateMetrics)
    (base_accuracy : ℚ) : Option MetricInfoArtifact :=
  (model_list.foldl specEvaluateStep (base_accuracy, none)).2

/-- A concrete model object, for closed test inputs. -/
def sampleModel : PyObject := ⟨"sklearn.linear_model", "LinearRegression", []⟩

/-- A concrete grid search result with the given best score, for closed
test inputs. -/
def sampleResult (score : ℚ) : GridSearchedBestModel :=
  ⟨"module_0", sampleModel, sampleModel, [], score⟩

/-- C9: `get_best_model_from_grid_searched_best_model_list` applied to an
empty result list returns None without raising, for every base
accuracy: the loop body never runs, so neither the raise nor a return is
reached and the function falls through to the implicit None. -/
theorem select_best_on_empty_list_returns_none (base_accuracy : ℚ) :
    get_best_model_from_grid_searched_best_model_list [] base_accuracy =
      .ok none := rfl

/-- C4: on a non-empty result list whose scores are all at or below the
base accuracy, `get_best_model_from_grid_searched_best_model_list`
raises the no-acceptable-model exception and returns no result. -/
theorem select_best_errors_when_all_scores_below_base
    (grid_searched_best_model_list : List GridSearchedBestModel)
    (base_accuracy : ℚ)
    (hne : grid_searched_best_model_list ≠ [])
    (hall : ∀ g ∈ grid_searched_best_model_list, g.best_score ≤ base_accuracy) :
    get_best_model_from_grid_searched_best_model_list
      grid_searched_best_model_list base_accuracy =
      .error noAcceptableModelMsg := by
  match grid_searched_best_model_list with
  | [] => exact absurd rfl hne
  | g :: rest =>
    have h := hall g (List.mem_cons_self g rest)
    simp [get_best_model_from_grid_searched_best_model_list, not_lt.mpr h]

/-- C4 witness: a single result with score 1/2 against base accuracy 3/5
triggers the no-acceptable-model error. -/
theorem select_best_errors_when_all_scores_below_base_witness :
    [sampleResult (1/2)] ≠ [] ∧
    (∀ g ∈ [sampleResult (1/2)], g.best_score ≤ (3/5 : ℚ)) ∧
    get_best_model_from_grid_searched_best_model_list
      [sampleResult (1/2)] (3/5) = .error noAcceptableModelMsg := by
  refine ⟨by simp, ?_, ?_⟩
  · intro g hg
    rw [List.mem_singleton] at hg
    subst hg
    norm_num [sampleResult]
  · exact select_best_errors_when_all_scores_below_base _ _ (by simp)
      (by intro g hg; rw [List.mem_singleton] at hg; subst hg;
          norm_num [sampleResult])

/-- C2 evaluation at the failing input: over scores
[1/2, 7/10, 13/20, 9/10] with base accuracy 3/5 the source does not scan
the whole list and return the 9/10 result as claimed; the unconditional
exit inside the loop body makes it raise the no-acceptable-model
exception as soon as the first score fails to exceed the base. -/
theorem select_best_raises_on_first_non_qualifying_result :
    get_best_model_from_grid_searched_best_model_list
      [sampleResult (1/2), sampleResult (7/10),
        sampleResult (13/20), sampleResult (9/10)] (3/5) =
      .error noAcceptableModelMsg := by
  norm_num [get_best_model_from_grid_searched_best_model_list, sampleResult]

/-- A concrete descriptor, for closed test inputs. -/
def descriptorA : ModelInitConfig :=
  ⟨"sklearn.linear_model", "LinearRegression", none,
    [("fit_intercept", .seq [.str "True", .str "False"])]⟩

/-- A second concrete descriptor, for closed test inputs. -/
def descriptorB : ModelInitConfig :=
  ⟨"sklearn.tree", "DecisionTreeRegressor",
    some [("min_samples_leaf", .int 3)],
    [("max_depth", .seq [.int 2, .int 4])]⟩

/-- A concrete configuration with two descriptors in its
`model_selection` mapping. -/
def twoModelConfig : ModelConfig :=
  ⟨"sklearn.model_selection", "GridSearchCV", [("cv", .int 3)],
    [("module_0", descriptorA), ("module_1", descriptorB)]⟩

/-- C1 evaluation at the failing input: on a valid configuration with
two descriptors, `get_initialised_model_list` does not return two
entries as claimed; the return nested inside the loop body makes it
return after the first descriptor, so the result is the one-element list
for `module_0` only. -/
theorem initialised_model_list_truncated_to_first_descriptor :
    twoModelConfig.model_selection.length = 2 ∧
    (get_initialised_model_list (ModelFactory.init twoModelConfig)).1 =
      some [initialiseModel "module_0" descriptorA] :=
  ⟨rfl, rfl⟩

/-- C10: on a configuration whose `model_selection` mapping is empty,
`get_initialised_model_list` returns None (not an empty list) and the
factory object is unchanged, so its stored `initialised_model_list`
field keeps the None set by `__init__`. -/
theorem initialised_model_list_none_on_empty_selection
    (config : ModelConfig) (h : config.model_selection = []) :
    get_initialised_model_list (ModelFactory.init config) =
      (none, ModelFactory.init config) ∧
    (get_initialised_model_list (ModelFactory.init config)).2.initialised_model_list
      = none := by
  have heq : get_initialised_model_list (ModelFactory.init config) =
      (none, ModelFactory.init config) := by
    unfold get_initialised_model_list
    simp [ModelFactory.init, h]
  exact ⟨heq, by rw [heq]; rfl⟩

/-- A concrete configuration with an empty `model_selection` mapping. -/
def emptySelectionConfig : ModelConfig :=
  ⟨"sklearn.model_selection", "GridSearchCV", [("cv", .int 3)], []⟩

/-- C10 witness: the empty-selection configuration evaluated
concretely. -/
theorem initialised_model_list_none_on_empty_selection_witness :
    emptySelectionConfig.model_selection = [] ∧
    get_initialised_model_list (ModelFactory.init emptySelectionConfig) =
      (none, ModelFactory.init emptySelectionConfig) :=
  ⟨rfl, (initialised_model_list_none_on_empty_selection emptySelectionConfig rfl).1⟩

/-- Auxiliary for C3: the search loop only ever appends None, because
each call of `initiate_best_parameter_search_for_initialised_model`
discards the result of `execute_grid_search_operation`. -/
theorem searchLoop_eq_append_none {α : Type} (self : ModelFactory)
    (fitOracle : GridSearchCV → α → α → FitOutcome)
    (input_feature output_feature : α)
    (l : List InitialisedModelDetail) :
    ∀ acc, searchLoop self fitOracle input_feature output_feature acc l =
      acc ++ l.map (fun _ => none) := by
  induction l with
  | nil => intro acc; simp [searchLoop]
  | cons m rest ih =>
    intro acc
    simp [searchLoop, initiate_best_parameter_search_for_initialised_model, ih]

/-- C3 evaluation at the failing input: the per-model search step does
not return the SearchResult extracted by `execute_grid_search_operation`
as claimed; the call at source line 285 is not returned, so every call
yields None, and the batch runner returns a list of one None per
initialised model. -/
theorem parameter_search_returns_none_for_every_model {α : Type}
    (self : ModelFactory) (fitOracle : GridSearchCV → α → α → FitOutcome)
    (initialised_model : InitialisedModelDetail)
    (initialised_model_list : List InitialisedModelDetail)
    (input_feature output_feature : α) :
    initiate_best_parameter_search_for_initialised_model self fitOracle
      initialised_model input_feature output_feature = none ∧
    (initiate_best_parameter_search_for_initialised_models self fitOracle
      initialised_model_list input_feature output_feature).1 =
      initialised_model_list.map (fun _ => none) := by
  constructor
  · rfl
  · simp [initiate_best_parameter_search_for_initialised_models,
      searchLoop_eq_append_none]

/-- Auxiliary for C5: the evaluation loop agrees with the specified
policy fold from any loop-carried state, as long as no processed
candidate has a degenerate accuracy sum. -/
theorem evaluateLoop_eq_specFold (l : List CandidateMetrics) :
    ∀ (base : ℚ) (art : Option MetricInfoArtifact),
      (∀ m ∈ l, m.train_acc + m.test_acc ≠ 0) →
      evaluateLoop base art l = .ok ((l.foldl specEvaluateStep (base, art)).2) := by
  induction l with
  | nil => intro base art _; simp [evaluateLoop]
  | cons m rest ih =>
    intro base art h
    have hm : m.train_acc + m.test_acc ≠ 0 := h m (List.mem_cons_self m rest)
    have hrest : ∀ x ∈ rest, x.train_acc + x.test_acc ≠ 0 :=
      fun x hx => h x (List.mem_cons_of_mem m hx)
    rw [List.foldl_cons]
    simp only [evaluateLoop, if_neg hm, specEvaluateStep, model_accuracy_of]
    by_cases hq : 2 * (m.train_acc * m.test_acc) / (m.train_acc + m.test_acc) ≥ base ∧
        |m.test_acc - m.train_acc| < 0.05
    · rw [if_pos hq, if_pos hq, ih _ _ hrest]
    · rw [if_neg hq, if_neg hq, ih _ _ hrest]

/-- C5: for every candidate list with no degenerate accuracy sum and
every base accuracy, `evaluate_regression_model` succeeds and returns
exactly what the specified selection policy computes: fold over all
candidates, qualification iff combined accuracy is at least the current
floor and the train and test accuracies differ by less than 1/20, floor
raised and report overwritten on qualification, so the report of the
last qualifying candidate is returned, or None when nothing
qualified. -/
theorem evaluate_regression_model_returns_last_qualifying_report
    (model_list : List CandidateMetrics) (base_accuracy : ℚ)
    (h : ∀ m ∈ model_list, m.train_acc + m.test_acc ≠ 0) :
    evaluate_regression_model model_list base_accuracy =
      .ok (specEvaluate model_list base_accuracy) :=
  evaluateLoop_eq_specFold model_list base_accuracy none h

/-- A well-generalising candidate: train accuracy 91/100, test accuracy
89/100 (difference 1/50 below the 1/20 guard). -/
def candGood : CandidateMetrics :=
  ⟨"RandomForestRegressor()", 91/100, 89/100, 1/10, 1/10⟩

/-- An overfit candidate: train accuracy 95/100, test accuracy 80/100
(difference 3/20, above the 1/20 guard). -/
def candOverfit : CandidateMetrics :=
  ⟨"GradientBoostingRegressor()", 95/100, 80/100, 1/10, 1/10⟩

/-- C5 witness: the two spec example candidates against base accuracy
3/5, hypotheses discharged concretely. -/
theorem evaluate_regression_model_returns_last_qualifying_report_witness :
    (∀ m ∈ [candGood, candOverfit], m.train_acc + m.test_acc ≠ 0) ∧
    evaluate_regression_model [candGood, candOverfit] (3/5) =
      .ok (specEvaluate [candGood, candOverfit] (3/5)) := by
  have h : ∀ m ∈ [candGood, candOverfit], m.train_acc + m.test_acc ≠ 0 := by
    intro m hm
    rcases List.mem_cons.mp hm with h1 | h2
    · subst h1; norm_num [candGood]
    · rw [List.mem_singleton] at h2; subst h2; norm_num [candOverfit]
  exact ⟨h, evaluate_regression_model_returns_last_qualifying_report _ _ h⟩

/-- Sanity check of the policy on the spec examples: the good candidate
qualifies and is retained, the overfit one is rejected. -/
example :
    specEvaluate [candGood, candOverfit] (3/5) =
      some (mkMetricInfoArtifact candGood
        (model_accuracy_of (91/100) (89/100))) := by
  norm_num [specEvaluate, specEvaluateStep, candGood, candOverfit,
    model_accuracy_of, abs]

/-- Auxiliary for C6: from any loop-carried state, the evaluation loop
fails with the ZeroDivisionError message as soon as the list contains a
candidate whose accuracies sum to zero. -/
theorem evaluateLoop_error_of_zero_sum (l : List CandidateMetrics) :
    ∀ (base : ℚ) (art : Option MetricInfoArtifact),
      (∃ m ∈ l, m.train_acc + m.test_acc = 0) →
      evaluateLoop base art l = .error zeroDivisionMsg := by
  induction l with
  | nil => intro base art h; simp at h
  | cons m rest ih =>
    intro base art h
    by_cases hm : m.train_acc + m.test_acc = 0
    · simp only [evaluateLoop, if_pos hm]
    · have hrest : ∃ x ∈ rest, x.train_acc + x.test_acc = 0 := by
        rcases h with ⟨x, hx, hx0⟩
        rcases List.mem_cons.mp hx with h1 | h2
        · exact absurd (h1 ▸ hx0) hm
        · exact ⟨x, h2, hx0⟩
      simp only [evaluateLoop, if_neg hm]
      split
      · exact ih _ _ hrest
      · exact ih _ _ hrest

/-- C6: `evaluate_regression_model` fails with the ZeroDivisionError (an
ArithmeticError in Python) whenever some candidate has
`train_acc + test_acc = 0`, rather than returning any result. -/
theorem evaluate_regression_model_errors_on_zero_accuracy_sum
    (model_list : List CandidateMetrics) (base_accuracy : ℚ)
    (h : ∃ m ∈ model_list, m.train_acc + m.test_acc = 0) :
    evaluate_regression_model model_list base_accuracy =
      .error zeroDivisionMsg :=
  evaluateLoop_error_of_zero_sum model_list base_accuracy none h

/-- A degenerate candidate whose train and test accuracies sum to
zero. -/
def candDegenerate : CandidateMetrics :=
  ⟨"LinearRegression()", 1/2, -1/2, 1/10, 1/10⟩

/-- C6 witness: a list holding the degenerate candidate makes the
evaluation fail, hypotheses discharged concretely. -/
theorem evaluate_regression_model_errors_on_zero_accuracy_sum_witness :
    (∃ m ∈ [candGood, candDegenerate], m.train_acc + m.test_acc = 0) ∧
    evaluate_regression_model [candGood, candDegenerate] (3/5) =
      .error zeroDivisionMsg := by
  have h : ∃ m ∈ [candGood, candDegenerate], m.train_acc + m.test_acc = 0 :=
    ⟨candDegenerate, by simp, by norm_num [candDegenerate]⟩
  exact ⟨h, evaluate_regression_model_errors_on_zero_accuracy_sum _ _ h⟩

/-- C7: the combined accuracy of the evaluation loop is the harmonic
mean of the train and test accuracies, and for equal nonzero accuracies
it equals the common value. -/
theorem model_accuracy_is_harmonic_mean (train_acc test_acc : ℚ) :
    model_accuracy_of train_acc test_acc =
      2 * train_acc * test_acc / (train_acc + test_acc) ∧
    (train_acc ≠ 0 → model_accuracy_of train_acc train_acc = train_acc) := by
  constructor
  · unfold model_accuracy_of; ring_nf
  · intro h
    have h2 : train_acc + train_acc ≠ 0 := by
      intro hc
      exact h (by linarith)
    unfold model_accuracy_of
    field_simp
    ring

/-- C7 witness: train and test accuracy both 4/5 give combined accuracy
4/5. -/
theorem model_accuracy_is_harmonic_mean_witness :
    model_accuracy_of (4/5) (4/5) = 4/5 :=
  (model_accuracy_is_harmonic_mean (4/5) (4/5)).2 (by norm_num)

/-- C8: the document that `get_sample_model_config_yaml_file` writes,
re-parsed by `ModelFactory.read_params`, yields exactly the mapping used
to generate it, for every serialiser and parser pair satisfying the
round-trip contract of the external YAML library. -/
theorem sample_config_round_trips_through_read_params
    (Doc : Type) (dump : YamlValue → Doc)
    (safe_load : Doc → Option YamlValue)
    (h : ∀ v, safe_load (dump v) = some v) :
    ModelFactory.read_params safe_load
      (get_sample_model_config_yaml_file dump) = some model_config :=
  h model_config

/-- C8 witness: instantiated with the identity serialiser pair, which
satisfies the round-trip contract definitionally. -/
theorem sample_config_round_trips_through_read_params_witness :
    (∀ v : YamlValue, some (id v) = some v) ∧
    ModelFactory.read_params some
      (@get_sample_model_config_yaml_file YamlValue id) =
      some model_config :=
  ⟨fun _ => rfl,
    sample_config_round_trips_through_read_params YamlValue id some
      (fun _ => rfl)⟩
